import Mathlib

/-!
Verification of the realtime Node/Gemini relay backend and its React client.

The development shallowly embeds the code of `src/backend-node/utils.js`,
`src/backend-node/server.js` and the React message reducer (`src/unnamed/part_001`)
as pure Lean functions.  Stateful handlers become functions from an explicit
connection state to a pair of the new state and a trace of observable actions
(process kills, stream destructions, websocket sends, session calls).
Machine integers are `Nat` with the explicit range checks Node's
`Buffer.writeUInt32LE` / `writeUInt16LE` perform.
-/

namespace Realtime

/-! ## Byte-level primitives (Node `Buffer` writes, base64) -/

/-- `Buffer.writeUInt32LE`: four little-endian bytes; Node throws
(`ERR_OUT_OF_RANGE`) when the value does not fit, modelled by `none`. -/
def writeUInt32LE (v : Nat) : Option (List Nat) :=
  if v < 4294967296 then
    some [v % 256, v / 256 % 256, v / 65536 % 256, v / 16777216 % 256]
  else none

/-- `Buffer.writeUInt16LE`: two little-endian bytes with Node's range check. -/
def writeUInt16LE (v : Nat) : Option (List Nat) :=
  if v < 65536 then some [v % 256, v / 256 % 256] else none

/-- ASCII bytes of a marker string written with `Buffer.write`. -/
def asciiBytes (s : String) : List Nat := s.data.map Char.toNat

/-- Read back a little-endian 16-bit field at byte offset `off`. -/
def readU16LE (l : List Nat) (off : Nat) : Nat :=
  match l.drop off with
  | a :: b :: _ => a + 256 * b
  | _ => 0

/-- Read back a little-endian 32-bit field at byte offset `off`. -/
def readU32LE (l : List Nat) (off : Nat) : Nat :=
  match l.drop off with
  | a :: b :: c :: d :: _ => a + 256 * b + 65536 * c + 16777216 * d
  | _ => 0

/-- `createWavHeader` from `src/backend-node/utils.js` (identical copy in
`server.js`): builds the fixed 44-byte RIFF/WAVE header.  Field writes happen
in source order; a write whose value is out of range makes the whole
computation fail, as the corresponding `Buffer.write*` call throws. -/
def createWavHeader (pcmDataLength sampleRate bitsPerSample numChannels : Nat) :
    Option (List Nat) := do
  let bytesPerSample := bitsPerSample / 8
  let blockAlign := numChannels * bytesPerSample
  let byteRate := sampleRate * blockAlign
  let riffChunkSize := pcmDataLength + 36
  let riff ← writeUInt32LE riffChunkSize
  let fmtLen ← writeUInt32LE 16
  let codec ← writeUInt16LE 1
  let ch ← writeUInt16LE numChannels
  let sr ← writeUInt32LE sampleRate
  let br ← writeUInt32LE byteRate
  let ba ← writeUInt16LE blockAlign
  let bps ← writeUInt16LE bitsPerSample
  let dlen ← writeUInt32LE pcmDataLength
  return asciiBytes "RIFF" ++ riff ++ asciiBytes "WAVE" ++ asciiBytes "fmt " ++
    fmtLen ++ codec ++ ch ++ sr ++ br ++ ba ++ bps ++ asciiBytes "data" ++ dlen

/-- The base64 alphabet used by `Buffer.toString('base64')`. -/
def b64Char (n : Nat) : Char :=
  "ABCDEFGHIJKLMNOPQRSTUVWXYZabcdefghijklmnopqrstuvwxyz0123456789+/".data.getD n 'A'

/-- RFC 4648 base64 of a byte list, as produced by `Buffer.toString('base64')`. -/
def base64Chars : List Nat → List Char
  | a :: b :: c :: rest =>
      let n := a % 256 * 65536 + b % 256 * 256 + c % 256
      b64Char (n / 262144) :: b64Char (n / 4096 % 64) :: b64Char (n / 64 % 64) ::
        b64Char (n % 64) :: base64Chars rest
  | [a, b] =>
      let n := a % 256 * 65536 + b % 256 * 256
      [b64Char (n / 262144), b64Char (n / 4096 % 64), b64Char (n / 64 % 64), '=']
  | [a] =>
      let n := a % 256 * 65536
      [b64Char (n / 262144), b64Char (n / 4096 % 64), '=', '=']
  | [] => []

def base64Encode (bytes : List Nat) : String := String.mk (base64Chars bytes)

/-! ## Backend connection state and action traces (`src/backend-node/utils.js`) -/

/-- The per-connection mutable record the backend handlers share
(`clientStateMap` entries).  Pipeline handles are identified by the numeric id
of the pipeline they belong to. -/
structure ClientState where
  ffmpegProcess : Option Nat
  ffmpegInputStream : Option Nat
  pcmOutputStream : Option Nat
  isSendingAudioToGemini : Bool
  audioBuffer : List Nat
  mimeType : String
  firstGeminiResponseReceived : Bool
deriving DecidableEq, Repr

/-- Observable side effects of the backend handlers, in execution order. -/
inductive Action where
  /-- an effective `SIGKILL` delivered to pipeline `k`'s ffmpeg subprocess.
  No handler ever emits this: `clientState.ffmpegProcess` holds the value
  `configureFFmpegProcess` returns, which is fluent-ffmpeg `pipe(pcmStream)`'s
  return value — the output `PassThrough` stream, an object with no `pid`. -/
  | killProcess (k : Nat)
  /-- the failing `process.kill(clientState.ffmpegProcess.pid, 'SIGKILL')`
  attempt against pipeline `k`'s handle: the handle is the pcm output stream,
  `.pid` is `undefined`, so the call throws `ERR_INVALID_ARG_TYPE` and is
  swallowed by the `catch` at `utils.js` 64–66. -/
  | killAttemptFailed (k : Nat)
  /-- `ffmpegInputStream.destroy()` for pipeline `k`. -/
  | destroyInput (k : Nat)
  /-- `pcmOutputStream.destroy()` for pipeline `k`. -/
  | destroyOutput (k : Nat)
  /-- creation of the ffmpeg pipeline `k` (streams allocated, process spawned). -/
  | spawnPipeline (k : Nat)
  /-- `session.close()` on the Gemini session `s`. -/
  | closeSession (s : Nat)
  /-- `ws.send` of a `{from:'gemini', type:'text'}` frame. -/
  | sendText (d : String)
  /-- `ws.send` of a `{from:'gemini', type:'audio'}` frame. -/
  | sendAudio (b64 : String) (mime : String)
  /-- `ws.send` of the `{from:'gemini', type:'turnComplete'}` frame. -/
  | sendTurnComplete
  /-- `ws.send` of a `{from:'backend', type:'error'}` frame. -/
  | sendError (d : String)
  /-- `ws.close(code, reason)`. -/
  | closeWs (code : Nat) (reason : String)
  /-- `session.sendClientContent({turns:[...], turnComplete})`. -/
  | sendClientContent (msg : String) (turnComplete : Bool)
deriving DecidableEq, Repr

/-- `stopAudioProcessing` (`utils.js` 59–74): if `ffmpegProcess` is set,
attempt `process.kill(clientState.ffmpegProcess.pid, 'SIGKILL')`.  The handle
is the pcm output `PassThrough` stream (what `pipe()` returned), which has no
`pid`, so the attempt always throws and is swallowed by the `catch` — the
ffmpeg subprocess is never killed.  Then destroy both streams if present,
null the three handles and clear the streaming flag.  Returns the updated
state and the emitted actions. -/
def stopAudioProcessing (cs : ClientState) : ClientState × List Action :=
  let killActs := match cs.ffmpegProcess with
    | some k => [Action.killAttemptFailed k]
    | none => []
  let inActs := match cs.ffmpegInputStream with
    | some k => [Action.destroyInput k]
    | none => []
  let outActs := match cs.pcmOutputStream with
    | some k => [Action.destroyOutput k]
    | none => []
  ({ cs with ffmpegProcess := none, ffmpegInputStream := none,
             pcmOutputStream := none, isSendingAudioToGemini := false },
   killActs ++ inActs ++ outActs)

/-- `handleGeminiTurnComplete` (`utils.js` 117–147): reset the first-response
flag; if audio is buffered, build the WAV file, send it base64-encoded and
clear the accumulator (a failure while building falls into the `catch` and
sends an error frame instead); in every case finish by sending the
`turnComplete` frame. -/
def handleGeminiTurnComplete (cs : ClientState) : ClientState × List Action :=
  let cs0 := { cs with firstGeminiResponseReceived := false }
  if cs.audioBuffer.length > 0 then
    match createWavHeader cs.audioBuffer.length 24000 16 1 with
    | some wavHeader =>
        let finalAudioBase64 := base64Encode (wavHeader ++ cs.audioBuffer)
        ({ cs0 with audioBuffer := [], mimeType := "" },
         [Action.sendAudio finalAudioBase64 "audio/wav", Action.sendTurnComplete])
    | none =>
        (cs0, [Action.sendError "Backend error processing Gemini audio",
               Action.sendTurnComplete])
  else
    (cs0, [Action.sendTurnComplete])

/-- `handleTextMessage` (`utils.js` 309–319): tear down any active pipeline,
then forward the utterance to Gemini as a finished turn. -/
def handleTextMessage (msg : String) (cs : ClientState) : ClientState × List Action :=
  let (cs1, acts) := stopAudioProcessing cs
  (cs1, acts ++ [Action.sendClientContent msg true])

/-- `handleAudioMessage` (`utils.js` 322–347): run `stopAudioProcessing`,
reset the first-response flag and the audio accumulator, then allocate the two
`PassThrough` streams of the fresh pipeline `k`, spawn its ffmpeg process and
store the handles.  `ffmpegProcess` receives `configureFFmpegProcess`'s return
value, which is `pipe(pcmStream)`'s return — the pcm output stream of pipeline
`k` itself, not the ffmpeg command — hence the same id `k` as
`pcmOutputStream`. -/
def handleAudioMessage (k : Nat) (cs : ClientState) : ClientState × List Action :=
  let (cs1, acts) := stopAudioProcessing cs
  ({ cs1 with firstGeminiResponseReceived := false, audioBuffer := [],
              ffmpegInputStream := some k, pcmOutputStream := some k,
              ffmpegProcess := some k },
   acts ++ [Action.spawnPipeline k])

/-- Single-connection view of the backend's global maps: the Gemini session
entry, the client-state entry, and the supply of fresh pipeline ids. -/
structure ConnWorld where
  session : Option Nat
  cstate : Option ClientState
  nextPipe : Nat
deriving DecidableEq, Repr

/-- A frame arriving on the websocket, after the transport layer: either it
fails `JSON.parse` (`malformed`), or it is a parsed object of the given shape
(`other` covers unknown types and audio frames without `audioData`). -/
inductive ClientMsg where
  | malformed
  | text (m : String)
  | audio (d : String)
  | other
deriving DecidableEq, Repr

/-- `handleWebSocketMessage` (`utils.js` 276–307): look up session and state —
closing with 1011 when either is missing — then parse; a parse failure is
caught and reported as a backend error frame; otherwise dispatch on the
message type. -/
def handleWebSocketMessage (w : ConnWorld) (m : ClientMsg) : ConnWorld × List Action :=
  match w.session with
  | none => (w, [Action.closeWs 1011 "No active Gemini session"])
  | some _ =>
    match w.cstate with
    | none => (w, [Action.closeWs 1011 "No active client state"])
    | some cs =>
      match m with
      | .malformed => (w, [Action.sendError "Backend error processing message"])
      | .text msg =>
          let (cs1, acts) := handleTextMessage msg cs
          ({ w with cstate := some cs1 }, acts)
      | .audio _ =>
          let (cs1, acts) := handleAudioMessage w.nextPipe cs
          ({ w with cstate := some cs1, nextPipe := w.nextPipe + 1 }, acts)
      | .other => (w, [])

/-- `cleanupClient` (`utils.js` 77–94): stop audio processing when a client
state exists, close and remove the Gemini session when one exists, and remove
the client-state entry. -/
def cleanupClient (w : ConnWorld) : ConnWorld × List Action :=
  let stopActs := match w.cstate with
    | some cs => (stopAudioProcessing cs).2
    | none => []
  let sessActs := match w.session with
    | some s => [Action.closeSession s]
    | none => []
  ({ w with session := none, cstate := none }, stopActs ++ sessActs)

/-- Run a sequence of websocket frames through `handleWebSocketMessage`,
collecting the full action trace. -/
def runMsgs (w : ConnWorld) : List ClientMsg → ConnWorld × List Action
  | [] => (w, [])
  | m :: ms =>
      let (w1, a1) := handleWebSocketMessage w m
      let (w2, a2) := runMsgs w1 ms
      (w2, a1 ++ a2)

/-- Pipeline `k`'s ffmpeg subprocess is alive after trace `t`: it was spawned
and no effective kill was ever delivered to it (a `killAttemptFailed` leaves
it running). -/
def aliveIn (t : List Action) (k : Nat) : Prop :=
  Action.spawnPipeline k ∈ t ∧ Action.killProcess k ∉ t

instance (t : List Action) (k : Nat) : Decidable (aliveIn t k) :=
  inferInstanceAs (Decidable (_ ∧ _))

/-! ## Connection setup (`src/backend-node/server.js` 48–203) -/

/-- Outcome of the `wss.on('connection')` handler for one socket:
the `audioBuffers` entry (buffer bytes and mime type), the
`geminiSessionMap` entry, whether the `ws.on` message/close/error handlers
were installed, and the emitted actions. -/
structure SetupResult where
  buffersEntry : Option (List Nat × String)
  sessionEntry : Option Nat
  handlersInstalled : Bool
  actions : List Action
deriving DecidableEq, Repr

/-- The connection handler (`server.js` 48–203): create the buffer entry,
then try `ai.live.connect`; on success store the session and install the
socket handlers; on failure (`catch`, lines 197–202) delete the buffer entry
and close the socket with code 1011, installing nothing. -/
def serverConnection (connectResult : Option Nat) : SetupResult :=
  match connectResult with
  | some s =>
      { buffersEntry := some ([], ""), sessionEntry := some s,
        handlersInstalled := true, actions := [] }
  | none =>
      { buffersEntry := none, sessionEntry := none, handlersInstalled := false,
        actions := [Action.closeWs 1011 "Backend connection error"] }

/-- `handleGeminiError` (`utils.js` 185–189): a Gemini session runtime error
only logs and closes the client socket with code 1011. -/
def handleGeminiError (_errMsg : String) : List Action :=
  [Action.closeWs 1011 "Gemini API Error"]

/-! ## Client-side message builder (`src/unnamed/part_001`, App.jsx) -/

/-- One chat message of the React state (`{sender, type, content,
turnComplete, isError}`); audio content is identified by its payload. -/
structure UiMessage where
  sender : String
  type : String
  content : String
  turnComplete : Bool
  isError : Bool
deriving DecidableEq, Repr, Inhabited

/-- A server frame as seen by `socketRef.current.onmessage` after JSON
parsing. -/
inductive ServerEvent where
  | text (d : String)
  | audio (b64 : String) (mime : String)
  | turnComplete
  | backendError (d : String)
deriving DecidableEq, Repr

/-- `Array.prototype.findLastIndex` with a predicate, as `Option Nat`. -/
def findLastIdx (p : α → Bool) : List α → Option Nat
  | [] => none
  | a :: as =>
      match findLastIdx p as with
      | some i => some (i + 1)
      | none => if p a then some 0 else none

/-- In-place update of the element at index `i`. -/
def modifyIdx (l : List α) (i : Nat) (f : α → α) : List α :=
  match l, i with
  | [], _ => []
  | a :: as, 0 => f a :: as
  | a :: as, n + 1 => a :: modifyIdx as n f

def isBot (m : UiMessage) : Bool := m.sender == "bot"

def isBotText (m : UiMessage) : Bool := m.sender == "bot" && m.type == "text"

/-- The `if (lastBotMessageIndex !== -1 && !...turnComplete) { ... = true }`
step: mark the last bot message complete when it is still open. -/
def closeLastOpenBot (ms : List UiMessage) : List UiMessage :=
  match findLastIdx isBot ms with
  | some i =>
      if (ms.getD i default).turnComplete then ms
      else modifyIdx ms i (fun m => { m with turnComplete := true })
  | none => ms

def isB64DataChar (c : Char) : Bool := c.isAlphanum || c == '+' || c == '/'

/-- Strip up to two trailing padding characters (list arrives reversed). -/
def stripPad : List Char → List Char
  | '=' :: '=' :: rest => rest
  | '=' :: rest => rest
  | l => l

/-- Acceptance check of the browser's `atob` (forgiving-base64): whitespace is
stripped, up to two `=` of padding allowed on a 4-aligned string, remaining
length must not be 1 mod 4 and all characters must be alphabet characters. -/
def validBase64 (s : String) : Bool :=
  let d := s.data.filter (fun c => !c.isWhitespace)
  let core := if d.length % 4 == 0 then (stripPad d.reverse).reverse else d
  decide (core.length % 4 ≠ 1) && core.all isB64DataChar

/-- The `setMessages` reducer of `socketRef.current.onmessage`
(`part_001` 149–191): merge a text fragment into the last open bot text
message or open a new one; append a complete audio message when the payload
decodes (`base64ToBlob` returning `null` skips the push); mark the last open
bot message complete on `turnComplete`; append a complete error message for
backend error frames. -/
def onServerEvent (ms : List UiMessage) (e : ServerEvent) : List UiMessage :=
  match e with
  | .text d =>
      match findLastIdx isBotText ms with
      | some i =>
          if (ms.getD i default).turnComplete then
            closeLastOpenBot ms ++ [⟨"bot", "text", d, false, false⟩]
          else
            modifyIdx ms i (fun m => { m with content := m.content ++ d })
      | none => closeLastOpenBot ms ++ [⟨"bot", "text", d, false, false⟩]
  | .audio b64 _ =>
      if validBase64 b64 then
        closeLastOpenBot ms ++ [⟨"bot", "audio", b64, true, false⟩]
      else ms
  | .turnComplete => closeLastOpenBot ms
  | .backendError d =>
      ms ++ [⟨"bot", "text", "Erro do Backend: " ++ d, true, true⟩]

/-- All bot messages of the list are already marked complete. -/
def allBotComplete (ms : List UiMessage) : Bool :=
  ms.all (fun m => !isBot m || m.turnComplete)

/-- An open (streaming) assistant text message. -/
def openTextMsg (c : String) : UiMessage := ⟨"bot", "text", c, false, false⟩

/-- Feed a list of text fragments and then the turn-complete frame through the
reducer. -/
def uiRunTurn (ms : List UiMessage) (frags : List String) : List UiMessage :=
  onServerEvent (List.foldl onServerEvent ms (frags.map ServerEvent.text))
    ServerEvent.turnComplete

/-! ## `truncateAudioData` (`utils.js` 31–57) and its JSON model -/

/-- JSON values as `JSON.parse`/`JSON.stringify` round-trip them. -/
inductive Json where
  | null
  | bool (b : Bool)
  | num (n : Int)
  | str (s : String)
  | arr (xs : List Json)
  | obj (fields : List (String × Json))

/-- The keys whose oversized base64-looking string values get truncated. -/
def isAudioKey (k : String) : Bool := k == "data" || k == "audio" || k == "audioData"

def isB64Char (c : Char) : Bool := c.isAlphanum || c == '+' || c == '/' || c == '='

/-- The `/^[a-zA-Z0-9+/=]/.test(value.substring(0, 50))` guard: the string is
non-empty and its first character is in the base64 alphabet. -/
def firstCharB64 (s : String) : Bool :=
  match s.data with
  | [] => false
  | c :: _ => isB64Char c

/-- The replacement condition on an object field. -/
def shouldTruncate (k : String) (s : String) (maxLength : Nat) : Bool :=
  isAudioKey k && decide (s.length > maxLength) && firstCharB64 s

/-- `value.substring(0, maxLength) + '...[TRUNCATED]'`. -/
def truncatedString (s : String) (maxLength : Nat) : String :=
  String.mk (s.data.take maxLength) ++ "...[TRUNCATED]"

mutual
/-- `traverse` acting on the value stored under object key `key`: strings may
be truncated depending on the key, objects and arrays are recursed into,
everything else is left alone. -/
def traverseObjField (maxLength : Nat) (key : String) : Json → Json
  | .str s =>
      if shouldTruncate key s maxLength then .str (truncatedString s maxLength)
      else .str s
  | .arr xs => .arr (traverseArr maxLength xs)
  | .obj fs => .obj (traverseObj maxLength fs)
  | j => j

/-- `traverse` acting on an array element: its `for ... in` key is a numeric
index, never one of the audio keys, so strings are kept and only nested
objects and arrays are recursed into. -/
def traverseArrElem (maxLength : Nat) : Json → Json
  | .arr xs => .arr (traverseArr maxLength xs)
  | .obj fs => .obj (traverseObj maxLength fs)
  | j => j

def traverseArr (maxLength : Nat) : List Json → List Json
  | [] => []
  | x :: xs => traverseArrElem maxLength x :: traverseArr maxLength xs

def traverseObj (maxLength : Nat) : List (String × Json) → List (String × Json)
  | [] => []
  | (k, v) :: fs => (k, traverseObjField maxLength k v) :: traverseObj maxLength fs
end

/-- `truncateAudioData` (`utils.js` 31–57): non-object values (including
`null`) are returned as-is; otherwise the value is deep-cloned via
`JSON.parse(JSON.stringify(...))` — the identity on JSON values — and the
clone is traversed, so the argument itself is never modified. -/
def truncateAudioData (j : Json) (maxLength : Nat) : Json :=
  match j with
  | .obj fs => .obj (traverseObj maxLength fs)
  | .arr xs => .arr (traverseArr maxLength xs)
  | j => j

end Realtime

namespace Realtime

/-- Helper: the exact byte list `createWavHeader L 24000 16 1` produces when the
RIFF size fits in 32 bits. -/
theorem createWavHeader_eq (L : Nat) (h : L + 36 < 4294967296) :
    createWavHeader L 24000 16 1 =
      some ([82, 73, 70, 70,
             (L + 36) % 256, (L + 36) / 256 % 256, (L + 36) / 65536 % 256,
             (L + 36) / 16777216 % 256,
             87, 65, 86, 69, 102, 109, 116, 32,
             16, 0, 0, 0, 1, 0, 1, 0,
             192, 93, 0, 0, 128, 187, 0, 0, 2, 0, 16, 0,
             100, 97, 116, 97,
             L % 256, L / 256 % 256, L / 65536 % 256, L / 16777216 % 256]) := by
  have hL : L < 4294967296 := by omega
  simp [createWavHeader, writeUInt32LE, writeUInt16LE, asciiBytes, h, hL]

/-- C1. For every payload length `L` with a representable RIFF size
(`L + 36 < 2^32`; Node's `Buffer.writeUInt32LE` rejects anything larger, and
both spec examples `L = 0` and `L = 1 000 000` are far below the bound),
`createWavHeader L 24000 16 1` succeeds — also for a zero-length payload —
and deterministically yields a 44-byte header whose RIFF total-size field
(offset 4) equals `L + 36`, whose audio format code (offset 20) is 1 (linear
PCM), whose byte-rate field (offset 28) equals 48000, whose block-align field
(offset 32) equals 2, and whose data-chunk length field (offset 40) equals
`L`. -/
theorem createWavHeader_fields (L : Nat) (h : L + 36 < 4294967296) :
    ∃ hd, createWavHeader L 24000 16 1 = some hd ∧
      hd.length = 44 ∧
      readU32LE hd 4 = L + 36 ∧
      readU16LE hd 20 = 1 ∧
      readU16LE hd 22 = 1 ∧
      readU32LE hd 24 = 24000 ∧
      readU32LE hd 28 = 48000 ∧
      readU16LE hd 32 = 2 ∧
      readU16LE hd 34 = 16 ∧
      readU32LE hd 40 = L := by
  refine ⟨_, createWavHeader_eq L h, ?_, ?_, ?_, ?_, ?_, ?_, ?_, ?_, ?_⟩ <;>
    simp [readU32LE, readU16LE] <;> omega

/-- Witness for C1 at the two payload lengths the spec singles out. -/
theorem createWavHeader_fields_witness :
    (0 + 36 < 4294967296 ∧
      ∃ hd, createWavHeader 0 24000 16 1 = some hd ∧ hd.length = 44 ∧
        readU32LE hd 4 = 0 + 36 ∧ readU16LE hd 20 = 1 ∧ readU16LE hd 22 = 1 ∧
        readU32LE hd 24 = 24000 ∧ readU32LE hd 28 = 48000 ∧ readU16LE hd 32 = 2 ∧
        readU16LE hd 34 = 16 ∧ readU32LE hd 40 = 0) ∧
    (1000000 + 36 < 4294967296 ∧
      ∃ hd, createWavHeader 1000000 24000 16 1 = some hd ∧ hd.length = 44 ∧
        readU32LE hd 4 = 1000000 + 36 ∧ readU16LE hd 20 = 1 ∧ readU16LE hd 22 = 1 ∧
        readU32LE hd 24 = 24000 ∧ readU32LE hd 28 = 48000 ∧ readU16LE hd 32 = 2 ∧
        readU16LE hd 34 = 16 ∧ readU32LE hd 40 = 1000000) :=
  ⟨⟨by norm_num, createWavHeader_fields 0 (by norm_num)⟩,
   ⟨by norm_num, createWavHeader_fields 1000000 (by norm_num)⟩⟩

/-- C9. `stopAudioProcessing` nulls the three pipeline handles and clears the
streaming flag, leaves every other field of the client state (audio
accumulator, mime type, first-response flag) unchanged, and on a state already
in that shape it is the identity and releases nothing. -/
theorem stopAudioProcessing_frame (cs : ClientState) :
    ((stopAudioProcessing cs).1.ffmpegProcess = none ∧
     (stopAudioProcessing cs).1.ffmpegInputStream = none ∧
     (stopAudioProcessing cs).1.pcmOutputStream = none ∧
     (stopAudioProcessing cs).1.isSendingAudioToGemini = false) ∧
    ((stopAudioProcessing cs).1.audioBuffer = cs.audioBuffer ∧
     (stopAudioProcessing cs).1.mimeType = cs.mimeType ∧
     (stopAudioProcessing cs).1.firstGeminiResponseReceived =
       cs.firstGeminiResponseReceived) ∧
    (cs.ffmpegProcess = none → cs.ffmpegInputStream = none →
      cs.pcmOutputStream = none → cs.isSendingAudioToGemini = false →
      stopAudioProcessing cs = (cs, [])) := by
  refine ⟨⟨rfl, rfl, rfl, rfl⟩, ⟨rfl, rfl, rfl⟩, ?_⟩
  intro h1 h2 h3 h4
  cases cs
  simp_all [stopAudioProcessing]

/-- Witness for C9: a state with no pipeline is untouched by `stopAudioProcessing`. -/
theorem stopAudioProcessing_frame_witness :
    stopAudioProcessing ⟨none, none, none, false, [97], "audio/pcm", true⟩ =
      (⟨none, none, none, false, [97], "audio/pcm", true⟩, []) :=
  (stopAudioProcessing_frame _).2.2 rfl rfl rfl rfl

/-- C5 (code bug). On a connection with an active pipeline, `handleTextMessage`
does destroy both streams, null the handles and send the utterance with
`turnComplete := true` as the last action — but the teardown the claim (and
spec §4.2/§4.3) requires never kills the ffmpeg subprocess: `ffmpegProcess`
holds the pcm output stream returned by `pipe()`, its `pid` is `undefined`,
so the `process.kill` throws and is swallowed.  The trace shows the failed
attempt and no effective kill before the send. -/
theorem handleTextMessage_never_kills :
    (handleTextMessage "oi" ⟨some 7, some 7, some 7, true, [], "", false⟩).2 =
      [Action.killAttemptFailed 7, Action.destroyInput 7, Action.destroyOutput 7,
       Action.sendClientContent "oi" true] ∧
    Action.killProcess 7 ∉
      (handleTextMessage "oi" ⟨some 7, some 7, some 7, true, [], "", false⟩).2 ∧
    (handleTextMessage "oi" ⟨some 7, some 7, some 7, true, [], "", false⟩).1.ffmpegProcess
      = none := by
  decide

/-- C2. On turn-complete: with a non-empty accumulator (of any length whose
RIFF size is representable) the handler emits exactly one audio frame —
the 44-byte WAV header followed by the accumulated payload, base64-encoded —
immediately followed by the turn-complete frame, and resets the accumulator;
with an empty accumulator it emits the turn-complete frame alone.  In every
case the last emitted frame is the explicit turn-complete signal. -/
theorem handleGeminiTurnComplete_spec (cs : ClientState) :
    (handleGeminiTurnComplete cs).2.getLast? = some Action.sendTurnComplete ∧
    (cs.audioBuffer = [] →
      handleGeminiTurnComplete cs =
        ({ cs with firstGeminiResponseReceived := false }, [Action.sendTurnComplete])) ∧
    (cs.audioBuffer ≠ [] → cs.audioBuffer.length + 36 < 4294967296 →
      ∃ hd, createWavHeader cs.audioBuffer.length 24000 16 1 = some hd ∧
        handleGeminiTurnComplete cs =
          ({ cs with firstGeminiResponseReceived := false,
                     audioBuffer := [], mimeType := "" },
           [Action.sendAudio (base64Encode (hd ++ cs.audioBuffer)) "audio/wav",
            Action.sendTurnComplete])) := by
  refine ⟨?_, ?_, ?_⟩
  · unfold handleGeminiTurnComplete
    by_cases hb : cs.audioBuffer.length > 0
    · cases hw : createWavHeader cs.audioBuffer.length 24000 16 1 <;> simp [hb, hw]
    · simp [hb]
  · intro h
    simp [handleGeminiTurnComplete, h]
  · intro h1 h2
    refine ⟨_, createWavHeader_eq cs.audioBuffer.length h2, ?_⟩
    have hb : cs.audioBuffer.length > 0 := List.length_pos.mpr h1
    simp [handleGeminiTurnComplete, hb, createWavHeader_eq cs.audioBuffer.length h2]

/-- Witness for C2 on a two-byte accumulator: one audio frame then the
turn-complete frame, accumulator empty afterwards. -/
theorem handleGeminiTurnComplete_spec_witness :
    (handleGeminiTurnComplete ⟨none, none, none, false, [1, 2], "audio/pcm", true⟩).1.audioBuffer
        = [] ∧
    (handleGeminiTurnComplete ⟨none, none, none, false, [1, 2], "audio/pcm", true⟩).2.getLast?
        = some Action.sendTurnComplete ∧
    ∃ hd, createWavHeader 2 24000 16 1 = some hd ∧
      (handleGeminiTurnComplete ⟨none, none, none, false, [1, 2], "audio/pcm", true⟩).2 =
        [Action.sendAudio (base64Encode (hd ++ [1, 2])) "audio/wav",
         Action.sendTurnComplete] := by
  obtain ⟨hlast, -, hfull⟩ :=
    handleGeminiTurnComplete_spec ⟨none, none, none, false, [1, 2], "audio/pcm", true⟩
  obtain ⟨hd, hhd, heq⟩ := hfull (by decide) (by norm_num)
  exact ⟨by rw [heq], hlast, hd, hhd, by rw [heq]⟩

/-- C4 (code bug). On a connection with a session and an active pipeline,
`cleanupClient` does remove both map entries, close the session exactly once,
destroy both streams exactly once, and a second call is a no-op that releases
nothing — but it never releases the ffmpeg subprocess, contrary to the claim
(and spec §4.1's "releases all owned resources exactly once"): the stored
`ffmpegProcess` is the pcm output stream returned by `pipe()`, its `pid` is
`undefined`, so the `process.kill` of `stopAudioProcessing` throws and is
swallowed on every call.  The trace contains the failed attempt and zero
effective kills. -/
theorem cleanupClient_never_kills :
    (cleanupClient ⟨some 5, some ⟨some 3, some 3, some 3, true, [], "", false⟩, 4⟩).2 =
      [Action.killAttemptFailed 3, Action.destroyInput 3, Action.destroyOutput 3,
       Action.closeSession 5] ∧
    (cleanupClient ⟨some 5, some ⟨some 3, some 3, some 3, true, [], "", false⟩, 4⟩).2.count
        (Action.killProcess 3) = 0 ∧
    (cleanupClient ⟨some 5, some ⟨some 3, some 3, some 3, true, [], "", false⟩, 4⟩).1 =
      ⟨none, none, 4⟩ ∧
    cleanupClient
        (cleanupClient ⟨some 5, some ⟨some 3, some 3, some 3, true, [], "", false⟩, 4⟩).1 =
      ((cleanupClient ⟨some 5, some ⟨some 3, some 3, some 3, true, [], "", false⟩, 4⟩).1,
       []) := by
  decide

/-- C7. A malformed (non-JSON) frame arriving while both the session and the
client state exist leaves the whole connection world unchanged, emits exactly
one backend error frame (in particular no `ws.close`), and any subsequent
frame is handled exactly as it would have been without the malformed one. -/
theorem handleWebSocketMessage_malformed (w : ConnWorld) (s : Nat) (cs : ClientState)
    (hs : w.session = some s) (hc : w.cstate = some cs) :
    handleWebSocketMessage w .malformed =
      (w, [Action.sendError "Backend error processing message"]) ∧
    (∀ m, handleWebSocketMessage (handleWebSocketMessage w .malformed).1 m =
      handleWebSocketMessage w m) := by
  have h1 : handleWebSocketMessage w .malformed =
      (w, [Action.sendError "Backend error processing message"]) := by
    simp [handleWebSocketMessage, hs, hc]
  exact ⟨h1, fun m => by rw [h1]⟩

/-- Witness for C7 on a concrete world with live session and state. -/
theorem handleWebSocketMessage_malformed_witness :
    handleWebSocketMessage ⟨some 1, some ⟨none, none, none, false, [], "", false⟩, 0⟩
        .malformed =
      (⟨some 1, some ⟨none, none, none, false, [], "", false⟩, 0⟩,
       [Action.sendError "Backend error processing message"]) ∧
    handleWebSocketMessage
        (handleWebSocketMessage ⟨some 1, some ⟨none, none, none, false, [], "", false⟩, 0⟩
          .malformed).1 (.text "oi") =
      handleWebSocketMessage ⟨some 1, some ⟨none, none, none, false, [], "", false⟩, 0⟩
        (.text "oi") := by
  obtain ⟨h1, h2⟩ := handleWebSocketMessage_malformed
    ⟨some 1, some ⟨none, none, none, false, [], "", false⟩, 0⟩ 1
    ⟨none, none, none, false, [], "", false⟩ rfl rfl
  exact ⟨h1, h2 (.text "oi")⟩

/-- C8. If `ai.live.connect` fails at connection start, the buffer entry is
removed, no session is stored, no message handlers are installed and the
socket is closed with code 1011; a Gemini runtime error after connect likewise
closes the socket with code 1011. -/
theorem connectFailure_fatal :
    serverConnection none =
      { buffersEntry := none, sessionEntry := none, handlersInstalled := false,
        actions := [Action.closeWs 1011 "Backend connection error"] } ∧
    ∀ e, handleGeminiError e = [Action.closeWs 1011 "Gemini API Error"] :=
  ⟨rfl, fun _ => rfl⟩


/-! ## The at-most-one-alive-pipeline invariant fails (C3) -/

/-- C3 (code bug). Two consecutive audio frames on one connection: the second
`handleAudioMessage` runs the teardown before spawning pipeline 1, but the
teardown's `process.kill` targets `ffmpegProcess.pid` — `undefined`, since the
handle is the pcm output stream `pipe()` returned — so it throws, is
swallowed, and pipeline 0's ffmpeg subprocess is never killed: the trace holds
the failed attempt, no effective kill, and both spawned subprocesses (0 and 1)
alive at its end, against the claimed at-most-one invariant. -/
theorem audio_preemption_never_kills :
    (runMsgs ⟨some 5, some ⟨none, none, none, false, [], "", false⟩, 0⟩
        [ClientMsg.audio "x", ClientMsg.audio "y"]).2 =
      [Action.spawnPipeline 0,
       Action.killAttemptFailed 0, Action.destroyInput 0, Action.destroyOutput 0,
       Action.spawnPipeline 1] ∧
    aliveIn (runMsgs ⟨some 5, some ⟨none, none, none, false, [], "", false⟩, 0⟩
        [ClientMsg.audio "x", ClientMsg.audio "y"]).2 0 ∧
    aliveIn (runMsgs ⟨some 5, some ⟨none, none, none, false, [], "", false⟩, 0⟩
        [ClientMsg.audio "x", ClientMsg.audio "y"]).2 1 ∧
    (0 : Nat) ≠ 1 := by
  decide

end Realtime

namespace Realtime

/-! ## Merging of streamed assistant text fragments (C6) -/

theorem findLastIdx_concat_of_pos {α : Type} (p : α → Bool) (l : List α) (a : α)
    (h : p a = true) : findLastIdx p (l ++ [a]) = some l.length := by
  induction l with
  | nil => simp [findLastIdx, h]
  | cons x xs ih => simp [findLastIdx, ih]

theorem findLastIdx_spec {α : Type} [Inhabited α] (p : α → Bool) (l : List α) (i : Nat)
    (h : findLastIdx p l = some i) : i < l.length ∧ p (l.getD i default) = true := by
  induction l generalizing i with
  | nil => simp [findLastIdx] at h
  | cons x xs ih =>
      rw [findLastIdx] at h
      rcases hx : findLastIdx p xs with - | j
      · rw [hx] at h
        by_cases hp : p x
        · rw [if_pos hp] at h
          cases h
          exact ⟨by simp, hp⟩
        · rw [if_neg hp] at h
          cases h
      · rw [hx] at h
        cases h
        obtain ⟨h1, h2⟩ := ih j hx
        exact ⟨Nat.succ_lt_succ h1, by simpa using h2⟩

theorem getD_concat_length {α : Type} (l : List α) (a d : α) :
    (l ++ [a]).getD l.length d = a := by
  induction l with
  | nil => rfl
  | cons x xs ih => simp [List.getD_cons_succ, ih]

theorem modifyIdx_concat_length {α : Type} (l : List α) (a : α) (f : α → α) :
    modifyIdx (l ++ [a]) l.length f = l ++ [f a] := by
  induction l with
  | nil => rfl
  | cons x xs ih => simp [modifyIdx, ih]

/-- When every bot message is already complete, the closing step is the
identity. -/
theorem closeLastOpenBot_of_allComplete (ms : List UiMessage)
    (h : allBotComplete ms = true) : closeLastOpenBot ms = ms := by
  rcases hf : findLastIdx isBot ms with - | i
  · rw [closeLastOpenBot, hf]
  · obtain ⟨hi, hp⟩ := findLastIdx_spec isBot ms i hf
    have hmem : ms.getD i default ∈ ms := by
      rw [List.getD_eq_getElem ms default hi]
      exact List.getElem_mem hi
    have hall := List.all_eq_true.mp h _ hmem
    have htc : (ms.getD i default).turnComplete = true := by
      rw [hp] at hall
      simpa using hall
    simp only [closeLastOpenBot, hf]
    rw [if_pos htc]

/-- A text fragment arriving while the last message is an open bot text
message is appended to its content. -/
theorem onServerEvent_text_open (ms : List UiMessage) (c d : String) :
    onServerEvent (ms ++ [openTextMsg c]) (.text d) =
      ms ++ [openTextMsg (c ++ d)] := by
  have hf : findLastIdx isBotText (ms ++ [openTextMsg c]) = some ms.length :=
    findLastIdx_concat_of_pos isBotText ms (openTextMsg c) rfl
  have hg : (ms ++ [openTextMsg c]).getD ms.length default = openTextMsg c :=
    getD_concat_length ms (openTextMsg c) default
  simp only [onServerEvent, hf, hg]
  rw [if_neg (by simp [openTextMsg])]
  exact modifyIdx_concat_length ms (openTextMsg c) _

/-- Folding a run of text fragments over an open bot text message
concatenates all of them into its content. -/
theorem foldl_text_open (frags : List String) (ms : List UiMessage) (c : String) :
    List.foldl onServerEvent (ms ++ [openTextMsg c]) (frags.map ServerEvent.text) =
      ms ++ [openTextMsg (frags.foldl (fun a b => a ++ b) c)] := by
  induction frags generalizing c with
  | nil => rfl
  | cons f fs ih =>
      rw [List.map_cons, List.foldl_cons, onServerEvent_text_open ms c f,
        ih (c ++ f), List.foldl_cons]

/-- A text fragment arriving while every bot message is complete opens a new
bot text message. -/
theorem onServerEvent_text_fresh (ms : List UiMessage) (d : String)
    (h : allBotComplete ms = true) :
    onServerEvent ms (.text d) = ms ++ [openTextMsg d] := by
  rcases hf : findLastIdx isBotText ms with - | i
  · simp only [onServerEvent, hf]
    rw [closeLastOpenBot_of_allComplete ms h]
    rfl
  · obtain ⟨hi, hp⟩ := findLastIdx_spec isBotText ms i hf
    have hmem : ms.getD i default ∈ ms := by
      rw [List.getD_eq_getElem ms default hi]
      exact List.getElem_mem hi
    have hbot : isBot (ms.getD i default) = true := by
      rw [isBotText, Bool.and_eq_true] at hp
      exact hp.1
    have hall := List.all_eq_true.mp h _ hmem
    have htc : (ms.getD i default).turnComplete = true := by
      rw [hbot] at hall
      simpa using hall
    simp only [onServerEvent, hf]
    rw [if_pos htc, closeLastOpenBot_of_allComplete ms h]
    rfl

/-- The turn-complete frame closes the open bot text message. -/
theorem onServerEvent_turnComplete_open (ms : List UiMessage) (c : String) :
    onServerEvent (ms ++ [openTextMsg c]) .turnComplete =
      ms ++ [⟨"bot", "text", c, true, false⟩] := by
  have hf : findLastIdx isBot (ms ++ [openTextMsg c]) = some ms.length :=
    findLastIdx_concat_of_pos isBot ms (openTextMsg c) rfl
  have hg : (ms ++ [openTextMsg c]).getD ms.length default = openTextMsg c :=
    getD_concat_length ms (openTextMsg c) default
  simp only [onServerEvent, closeLastOpenBot, hf, hg]
  rw [if_neg (by simp [openTextMsg])]
  exact modifyIdx_concat_length ms (openTextMsg c) _

/-- C6. Starting from any chat list whose bot messages are all complete, a
sequence of assistant text fragments followed by the turn-complete frame
yields the original list plus exactly one new assistant text message, whose
content is the concatenation of all fragments, marked complete. -/
theorem ui_text_merge (ms : List UiMessage) (f : String) (frags : List String)
    (h : allBotComplete ms = true) :
    uiRunTurn ms (f :: frags) =
      ms ++ [⟨"bot", "text", frags.foldl (fun a b => a ++ b) f, true, false⟩] := by
  rw [uiRunTurn, List.map_cons, List.foldl_cons, onServerEvent_text_fresh ms f h,
    foldl_text_open frags ms f, onServerEvent_turnComplete_open]

/-- Witness for C6: the spec's example fragments `["Hel", "lo", " world"]`
produce exactly one complete assistant message `"Hello world"`. -/
theorem ui_text_merge_witness :
    allBotComplete [] = true ∧
    uiRunTurn [] ["Hel", "lo", " world"] =
      [⟨"bot", "text", "Hello world", true, false⟩] := by
  have h := ui_text_merge [] "Hel" ["lo", " world"] rfl
  refine ⟨rfl, ?_⟩
  rw [h]
  decide

end Realtime

namespace Realtime

/-! ## Frame properties of `truncateAudioData` (C10) -/

/-- Traversal preserves the key list of an object verbatim. -/
theorem traverseObj_keys (mL : Nat) (fs : List (String × Json)) :
    (traverseObj mL fs).map Prod.fst = fs.map Prod.fst := by
  induction fs with
  | nil => simp [traverseObj]
  | cons kv fs ih =>
      cases kv
      simp [traverseObj, ih]

/-- Traversal preserves the length of arrays. -/
theorem traverseArr_length (mL : Nat) (xs : List Json) :
    (traverseArr mL xs).length = xs.length := by
  induction xs with
  | nil => simp [traverseArr]
  | cons x xs ih => simp [traverseArr, ih]

/-- C10. `truncateAudioData` returns every non-object input (null, booleans,
numbers, top-level strings) as-is; on objects it maps the cloned fields
pointwise, preserving the key list; the only values ever replaced are string
fields stored under one of the keys `data`/`audio`/`audioData` that are longer
than `maxLength` and start with a base64-alphabet character, which become the
`maxLength`-prefix plus the `...[TRUNCATED]` marker; a string field under any
other key, a string shorter than the bound or starting outside the alphabet,
a non-string scalar field, and any string sitting in an array are all kept
equal to the input, and array lengths are preserved.  (The JS function works
on a `JSON.parse(JSON.stringify(...))` clone — the identity on JSON values —
so the argument itself is never modified.) -/
theorem truncateAudioData_frame (mL : Nat) :
    truncateAudioData .null mL = .null ∧
    (∀ b, truncateAudioData (.bool b) mL = .bool b) ∧
    (∀ n, truncateAudioData (.num n) mL = .num n) ∧
    (∀ s, truncateAudioData (.str s) mL = .str s) ∧
    (∀ fs, truncateAudioData (.obj fs) mL = .obj (traverseObj mL fs) ∧
      (traverseObj mL fs).map Prod.fst = fs.map Prod.fst) ∧
    (∀ k s, isAudioKey k = true → s.length > mL → firstCharB64 s = true →
      traverseObjField mL k (.str s) = .str (truncatedString s mL)) ∧
    (∀ k s, isAudioKey k = false → traverseObjField mL k (.str s) = .str s) ∧
    (∀ k s, s.length ≤ mL → traverseObjField mL k (.str s) = .str s) ∧
    (∀ k s, firstCharB64 s = false → traverseObjField mL k (.str s) = .str s) ∧
    (∀ s, traverseArrElem mL (.str s) = .str s) ∧
    (∀ k, traverseObjField mL k .null = .null) ∧
    (∀ k b, traverseObjField mL k (.bool b) = .bool b) ∧
    (∀ k n, traverseObjField mL k (.num n) = .num n) ∧
    (∀ xs, (traverseArr mL xs).length = xs.length) := by
  refine ⟨rfl, fun b => rfl, fun n => rfl, fun s => rfl,
    fun fs => ⟨rfl, traverseObj_keys mL fs⟩, ?_, ?_, ?_, ?_,
    fun s => rfl, fun k => rfl, fun k b => rfl, fun k n => rfl,
    traverseArr_length mL⟩
  · intro k s hk hlen hfc
    simp [traverseObjField, shouldTruncate, hk, hlen, hfc]
  · intro k s hk
    simp [traverseObjField, shouldTruncate, hk]
  · intro k s hlen
    simp [traverseObjField, shouldTruncate, Nat.not_lt.mpr hlen]
  · intro k s hfc
    simp [traverseObjField, shouldTruncate, hfc]

/-- Witness for C10: an oversized base64 string under `data` is truncated with
the marker; other-keyed, short or non-base64 strings are untouched. -/
theorem truncateAudioData_frame_witness :
    (isAudioKey "data" = true ∧ "abcd".length > 2 ∧ firstCharB64 "abcd" = true ∧
      traverseObjField 2 "data" (.str "abcd") = .str (truncatedString "abcd" 2)) ∧
    (isAudioKey "nome" = false ∧ traverseObjField 2 "nome" (.str "abcd") = .str "abcd") ∧
    ("ab".length ≤ 2 ∧ traverseObjField 2 "data" (.str "ab") = .str "ab") ∧
    (firstCharB64 "!abc" = false ∧ traverseObjField 2 "data" (.str "!abc") = .str "!abc") := by
  have h := truncateAudioData_frame 2
  exact ⟨⟨by decide, by decide, by decide,
      h.2.2.2.2.2.1 "data" "abcd" (by decide) (by decide) (by decide)⟩,
    ⟨by decide, h.2.2.2.2.2.2.1 "nome" "abcd" (by decide)⟩,
    ⟨by decide, h.2.2.2.2.2.2.2.1 "data" "ab" (by decide)⟩,
    ⟨by decide, h.2.2.2.2.2.2.2.2.1 "data" "!abc" (by decide)⟩⟩

end Realtime
